import Mathlib

set_option maxRecDepth 4000

/-
  Verification of the opencode-session-handoff prompt formatter and trigger
  recognizer against its natural-language specification.

  Source files embedded here:
  - src/unnamed/part_002 : the Compact format builder (namespace Compact)
  - src/prompt.ts        : the Detailed format builder (namespace Detailed)
  - src/index.ts         : a second Detailed builder, imperative push style
                           (namespace IndexTs)
  - src/unnamed/part_003 : a third Detailed builder (namespace Part003)

  TypeScript strings are modelled as Lean String values; arrays as List;
  the optional todos array as Option (List Todo); `join("\n")` as
  String.intercalate "\n".  Number interpolation uses toString on Nat.
  The trigger recognizer and goal extractor are absent from src (only the
  test file references them), so they are modelled from the spec over
  lists of characters; see the Trigger namespace.
-/

structure Todo where
  content : String
  status : String
deriving DecidableEq

structure Decision where
  decision : String
  reason : String
deriving DecidableEq

structure TriedFailed where
  approach : String
  why_failed : String
deriving DecidableEq

namespace Compact

/- Embeds src/unnamed/part_002.  The interface HandoffArgs there carries a
   summary field plus fields that the Compact builder does not render
   (reference_files, tried_failed, user_prefs); they are kept for fidelity. -/

structure HandoffArgs where
  previousSessionId : String
  summary : String
  blocked : String
  modified_files : List String
  reference_files : List String
  decisions : List Decision
  tried_failed : List TriedFailed
  next_steps : List String
  user_prefs : List String
  todos : Option (List Todo)
deriving DecidableEq

def buildBlockedSection (blocked : String) : List String :=
  if blocked = "" ∨ blocked = "none" then []
  else ["", "**Blocked:** " ++ blocked]

def buildTodosSection (todos : Option (List Todo)) : List String :=
  match todos with
  | none => []
  | some ts =>
    if ts.length = 0 then []
    else
      let completed := (ts.filter (fun t => t.status == "completed")).length
      let inProgress := ts.filter (fun t => t.status == "in_progress")
      let pending := ts.filter (fun t => t.status == "pending")
      ["", "**Todos:** " ++ toString completed ++ "/" ++ toString ts.length ++ " done"]
      ++ (if 0 < inProgress.length then
            ["- In progress: " ++ String.intercalate ", " (inProgress.map (fun t => t.content))]
          else [])
      ++ (if 0 < pending.length then
            ["- Pending: " ++ String.intercalate ", " (pending.map (fun t => t.content))]
          else [])

def buildFilesSection (modified : List String) : List String :=
  if modified.length = 0 then []
  else ["", "**Files:** " ++ String.intercalate ", " modified]

def buildDecisionsSection (decisions : List Decision) : List String :=
  if decisions.length = 0 then []
  else
    ["", "**Decisions:** " ++ String.intercalate "; "
      (decisions.map (fun d =>
        if d.reason = "" then d.decision
        else d.decision ++ " (" ++ d.reason ++ ")"))]

def buildNextStepsSection (steps : List String) : List String :=
  if steps.length = 0 then []
  else
    ["", "**Next:** " ++ String.intercalate " "
      (steps.enum.map (fun p => toString (p.1 + 1) ++ ". " ++ p.2))]

/- The source builds the document as one array literal joined with "\n";
   promptLines is that array literal.  The footer separator between the
   previousSessionId segment and the Use segment is, byte for byte in the
   source, the two characters U+00C2 U+00B7. -/

def promptLines (args : HandoffArgs) : List String :=
  ["## Session Handoff", "", args.summary]
  ++ buildBlockedSection args.blocked
  ++ buildTodosSection args.todos
  ++ buildFilesSection args.modified_files
  ++ buildDecisionsSection args.decisions
  ++ buildNextStepsSection args.next_steps
  ++ ["", "---",
      "Previous: `" ++ args.previousSessionId ++
        "` Â· Use `read_session` if you need more context."]

def buildHandoffPrompt (args : HandoffArgs) : String :=
  String.intercalate "\n" (promptLines args)

end Compact

namespace Detailed

/- Embeds src/prompt.ts.  Its HandoffArgs interface names the summary slot
   task; the shape is otherwise the same record.  The same interface is
   declared, field for field, in src/index.ts (inline parameter type) and
   in src/unnamed/part_003, so this structure also serves as the input
   type of the IndexTs and Part003 builders below. -/

structure HandoffArgs where
  previousSessionId : String
  task : String
  blocked : String
  modified_files : List String
  reference_files : List String
  decisions : List Decision
  tried_failed : List TriedFailed
  next_steps : List String
  user_prefs : List String
  todos : Option (List Todo)
deriving DecidableEq

def buildBlockedSection (blocked : String) : List String :=
  if blocked = "" ∨ blocked = "none" then []
  else ["", "### Blocked", blocked]

def buildTodosSection (todos : Option (List Todo)) : List String :=
  match todos with
  | none => []
  | some ts =>
    if ts.length = 0 then []
    else
      let completed := (ts.filter (fun t => t.status == "completed")).length
      let inProgress := ts.filter (fun t => t.status == "in_progress")
      let pending := ts.filter (fun t => t.status == "pending")
      ["", "### Todos", toString completed ++ "/" ++ toString ts.length ++ " complete"]
      ++ (if 0 < inProgress.length then
            ["In progress: " ++ String.intercalate ", " (inProgress.map (fun t => t.content))]
          else [])
      ++ (if 0 < pending.length then
            ["Pending: " ++ String.intercalate ", " (pending.map (fun t => t.content))]
          else [])

def buildFilesSection (modified : List String) (reference : List String) : List String :=
  if modified.length = 0 ∧ reference.length = 0 then []
  else
    ["", "### Files"]
    ++ (if 0 < modified.length then ["Modified: " ++ String.intercalate ", " modified] else [])
    ++ (if 0 < reference.length then ["Reference: " ++ String.intercalate ", " reference] else [])

def buildDecisionsSection (decisions : List Decision) : List String :=
  if decisions.length = 0 then []
  else ["", "### Decisions Made"]
       ++ decisions.map (fun d => "- " ++ d.decision ++ ": " ++ d.reason)

def buildTriedFailedSection (tried : List TriedFailed) : List String :=
  if tried.length = 0 then []
  else ["", "### Tried & Failed"]
       ++ tried.map (fun t => "- " ++ t.approach ++ ": " ++ t.why_failed)

def buildNextStepsSection (steps : List String) : List String :=
  if steps.length = 0 then []
  else ["", "### Next Steps"]
       ++ steps.enum.map (fun p => toString (p.1 + 1) ++ ". " ++ p.2)

def buildUserPrefsSection (prefs : List String) : List String :=
  if prefs.length = 0 then []
  else ["", "### User Preferences"] ++ prefs.map (fun p => "- " ++ p)

def promptLines (args : HandoffArgs) : List String :=
  ["## Handoff Continuation Prompt", "", "### Task",
   if args.task = "" then "Continue previous work" else args.task]
  ++ buildBlockedSection args.blocked
  ++ buildTodosSection args.todos
  ++ buildFilesSection args.modified_files args.reference_files
  ++ buildDecisionsSection args.decisions
  ++ buildTriedFailedSection args.tried_failed
  ++ buildNextStepsSection args.next_steps
  ++ buildUserPrefsSection args.user_prefs
  ++ ["", "---",
      "Continuing from session `" ++ args.previousSessionId ++
        "`. Use `read_session` tool if you need additional context."]

def buildHandoffPrompt (args : HandoffArgs) : String :=
  String.intercalate "\n" (promptLines args)

end Detailed

namespace IndexTs

/- Embeds the module-private buildHandoffPrompt of src/index.ts.  That
   function assembles the same document imperatively: a lines array with
   a sequence of push calls, each guarded if-block appending its lines.
   A run of push calls inside one guard is modelled as appending the
   corresponding list; the guards are translated with the polarity used
   in the source (truthiness tests rather than the early-return emptiness
   tests of src/prompt.ts). -/

def buildHandoffPrompt (args : Detailed.HandoffArgs) : String :=
  let lines : List String := ["## Handoff Continuation Prompt"]
  let lines := lines ++ [""]
  let lines := lines ++ ["### Task"]
  let lines := lines ++ [if args.task = "" then "Continue previous work" else args.task]
  let lines := lines ++
    (if args.blocked ≠ "" ∧ args.blocked ≠ "none" then ["", "### Blocked", args.blocked] else [])
  let lines := lines ++
    (args.todos.elim []
      (fun ts =>
        if 0 < ts.length then
          let completed := (ts.filter (fun t => t.status == "completed")).length
          let inProgress := ts.filter (fun t => t.status == "in_progress")
          let pending := ts.filter (fun t => t.status == "pending")
          ["", "### Todos", toString completed ++ "/" ++ toString ts.length ++ " complete"]
          ++ (if 0 < inProgress.length then
                ["In progress: " ++ String.intercalate ", " (inProgress.map (fun t => t.content))]
              else [])
          ++ (if 0 < pending.length then
                ["Pending: " ++ String.intercalate ", " (pending.map (fun t => t.content))]
              else [])
        else []))
  let lines := lines ++
    (if 0 < args.modified_files.length ∨ 0 < args.reference_files.length then
       ["", "### Files"]
       ++ (if 0 < args.modified_files.length then
             ["Modified: " ++ String.intercalate ", " args.modified_files] else [])
       ++ (if 0 < args.reference_files.length then
             ["Reference: " ++ String.intercalate ", " args.reference_files] else [])
     else [])
  let lines := lines ++
    (if 0 < args.decisions.length then
       ["", "### Decisions Made"]
       ++ args.decisions.map (fun d => "- " ++ d.decision ++ ": " ++ d.reason)
     else [])
  let lines := lines ++
    (if 0 < args.tried_failed.length then
       ["", "### Tried & Failed"]
       ++ args.tried_failed.map (fun t => "- " ++ t.approach ++ ": " ++ t.why_failed)
     else [])
  let lines := lines ++
    (if 0 < args.next_steps.length then
       ["", "### Next Steps"]
       ++ args.next_steps.enum.map (fun p => toString (p.1 + 1) ++ ". " ++ p.2)
     else [])
  let lines := lines ++
    (if 0 < args.user_prefs.length then
       ["", "### User Preferences"] ++ args.user_prefs.map (fun p => "- " ++ p)
     else [])
  let lines := lines ++ [""]
  let lines := lines ++ ["---"]
  let lines := lines ++
    ["Continuing from session `" ++ args.previousSessionId ++
       "`. Use `read_session` tool if you need additional context."]
  String.intercalate "\n" lines

end IndexTs

namespace Part003

/- Embeds src/unnamed/part_003, whose section builders and
   buildHandoffPrompt repeat src/prompt.ts verbatim (the only textual
   difference is binding the array to a local before joining). -/

def buildBlockedSection (blocked : String) : List String :=
  if blocked = "" ∨ blocked = "none" then []
  else ["", "### Blocked", blocked]

def buildTodosSection (todos : Option (List Todo)) : List String :=
  match todos with
  | none => []
  | some ts =>
    if ts.length = 0 then []
    else
      let completed := (ts.filter (fun t => t.status == "completed")).length
      let inProgress := ts.filter (fun t => t.status == "in_progress")
      let pending := ts.filter (fun t => t.status == "pending")
      ["", "### Todos", toString completed ++ "/" ++ toString ts.length ++ " complete"]
      ++ (if 0 < inProgress.length then
            ["In progress: " ++ String.intercalate ", " (inProgress.map (fun t => t.content))]
          else [])
      ++ (if 0 < pending.length then
            ["Pending: " ++ String.intercalate ", " (pending.map (fun t => t.content))]
          else [])

def buildFilesSection (modified : List String) (reference : List String) : List String :=
  if modified.length = 0 ∧ reference.length = 0 then []
  else
    ["", "### Files"]
    ++ (if 0 < modified.length then ["Modified: " ++ String.intercalate ", " modified] else [])
    ++ (if 0 < reference.length then ["Reference: " ++ String.intercalate ", " reference] else [])

def buildDecisionsSection (decisions : List Decision) : List String :=
  if decisions.length = 0 then []
  else ["", "### Decisions Made"]
       ++ decisions.map (fun d => "- " ++ d.decision ++ ": " ++ d.reason)

def buildTriedFailedSection (tried : List TriedFailed) : List String :=
  if tried.length = 0 then []
  else ["", "### Tried & Failed"]
       ++ tried.map (fun t => "- " ++ t.approach ++ ": " ++ t.why_failed)

def buildNextStepsSection (steps : List String) : List String :=
  if steps.length = 0 then []
  else ["", "### Next Steps"]
       ++ steps.enum.map (fun p => toString (p.1 + 1) ++ ". " ++ p.2)

def buildUserPrefsSection (prefs : List String) : List String :=
  if prefs.length = 0 then []
  else ["", "### User Preferences"] ++ prefs.map (fun p => "- " ++ p)

def buildHandoffPrompt (args : Detailed.HandoffArgs) : String :=
  let lines : List String :=
    ["## Handoff Continuation Prompt", "", "### Task",
     if args.task = "" then "Continue previous work" else args.task]
    ++ buildBlockedSection args.blocked
    ++ buildTodosSection args.todos
    ++ buildFilesSection args.modified_files args.reference_files
    ++ buildDecisionsSection args.decisions
    ++ buildTriedFailedSection args.tried_failed
    ++ buildNextStepsSection args.next_steps
    ++ buildUserPrefsSection args.user_prefs
    ++ ["", "---",
        "Continuing from session `" ++ args.previousSessionId ++
          "`. Use `read_session` tool if you need additional context."]
  String.intercalate "\n" lines

end Part003

namespace Trigger

/-- Modelled from the spec: the Trigger Recognizer and Goal Extractor of
spec sections 4.2 and 4.3 (`isHandoffTrigger`, `extractGoal`, named
`extractGoalFromHandoff` by the test suite) are code of this repository
that is not under src/ — only src/index.test.ts calls them.  Messages are
modelled as lists of characters so that trimming and case-insensitive
token matching can be reasoned about; `wsp` is the whitespace test used
by trimming. -/
def wsp (c : Char) : Bool := c.isWhitespace

/-- Modelled from the spec: removal of leading whitespace. -/
def trimLeft (s : List Char) : List Char := s.dropWhile wsp

/-- Modelled from the spec: removal of trailing whitespace. -/
def trimRight (s : List Char) : List Char := (s.reverse.dropWhile wsp).reverse

/-- Modelled from the spec: trimming leading and trailing whitespace. -/
def trim (s : List Char) : List Char := trimRight (trimLeft s)

/-- Modelled from the spec: lower-casing for the case-insensitive match of
the trigger tokens (ASCII letters, which cover the tokens). -/
def lowerChar (c : Char) : Char :=
  if 'A' ≤ c ∧ c ≤ 'Z' then Char.ofNat (c.toNat + 32) else c

/-- Case-insensitive character comparison. -/
def eqCI (a b : Char) : Bool := lowerChar a == lowerChar b

/-- Case-insensitive test that the second list starts with the first. -/
def startsWithCI : List Char → List Char → Bool
  | [], _ => true
  | _ :: _, [] => false
  | p :: ps, c :: cs => eqCI p c && startsWithCI ps cs

/-- Case-insensitive equality of character lists. -/
def strEqCI : List Char → List Char → Bool
  | [], [] => true
  | p :: ps, c :: cs => eqCI p c && strEqCI ps cs
  | _, _ => false

/-- The trigger token handoff. -/
def handoffTok : List Char := ['h', 'a', 'n', 'd', 'o', 'f', 'f']

/-- The trigger token /handoff. -/
def slashHandoffTok : List Char := ['/', 'h', 'a', 'n', 'd', 'o', 'f', 'f']

/-- The trigger phrase session handoff. -/
def sessionHandoffTok : List Char :=
  ['s', 'e', 's', 's', 'i', 'o', 'n', ' ', 'h', 'a', 'n', 'd', 'o', 'f', 'f']

/-- Modelled from the spec: the trimmed text starts case-insensitively with
the token, followed by a whitespace character and then at least one
non-whitespace character. -/
def hasGoalAfter (tok t : List Char) : Bool :=
  startsWithCI tok t &&
    (match t.drop tok.length with
     | [] => false
     | c :: cs => wsp c && !(trim (c :: cs)).isEmpty)

/-- Modelled from the spec (section 4.2): true iff the trimmed, lower-cased
message is exactly handoff, /handoff or session handoff, or is handoff or
/handoff followed by a space and at least one non-whitespace character. -/
def isHandoffTrigger (msg : List Char) : Bool :=
  let t := trim msg
  strEqCI t handoffTok || strEqCI t slashHandoffTok || strEqCI t sessionHandoffTok ||
    hasGoalAfter handoffTok t || hasGoalAfter slashHandoffTok t

/-- Modelled from the spec (section 4.3): if the trimmed text starts
case-insensitively with handoff or /handoff followed by whitespace and at
least one non-whitespace character, the remainder is returned trimmed with
its original casing; otherwise the absence signal none is returned. -/
def extractGoalFromHandoff (msg : List Char) : Option (List Char) :=
  let t := trim msg
  if hasGoalAfter slashHandoffTok t then some (trim (t.drop slashHandoffTok.length))
  else if hasGoalAfter handoffTok t then some (trim (t.drop handoffTok.length))
  else none

end Trigger

/-- Rendering of a numbered list as the spec describes it: labels 1.
through N. attached, in input order, to the list entries; stated here from
the wording of the spec so that the enumeration the source performs can be
compared against it. -/
def numberFrom : Nat → List String → List String
  | _, [] => []
  | k, s :: rest => (toString k ++ ". " ++ s) :: numberFrom (k + 1) rest

/-- The blank-line rule of the spec for one section: a section either
contributes no lines at all, or contributes exactly one empty line
followed by its non-empty content, none of whose lines is blank. -/
def SepSection (s : List String) : Prop :=
  s = [] ∨ ∃ b, s = "" :: b ∧ b ≠ [] ∧ ∀ l ∈ b, l ≠ ""

example :
    Compact.buildTodosSection (some [⟨"Task 1", "completed"⟩, ⟨"Task 2", "in_progress"⟩, ⟨"Task 3", "pending"⟩]) =
      ["", "**Todos:** 1/3 done", "- In progress: Task 2", "- Pending: Task 3"] := by decide

example :
    Compact.buildHandoffPrompt ⟨"ses_123", "Sum", "", [], [], [], [], [], [], none⟩ =
      "## Session Handoff\n\nSum\n\n---\nPrevious: `ses_123` Â· Use `read_session` if you need more context." := by decide

example :
    Detailed.buildHandoffPrompt ⟨"ses_123", "", "Wait", [], [], [], [], [], [], none⟩ =
      "## Handoff Continuation Prompt\n\n### Task\nContinue previous work\n\n### Blocked\nWait\n\n---\nContinuing from session `ses_123`. Use `read_session` tool if you need additional context." := by decide

example :
    IndexTs.buildHandoffPrompt ⟨"s", "T", "", ["a"], [], [⟨"d", "r"⟩], [], ["x", "y"], [], none⟩ =
      Detailed.buildHandoffPrompt ⟨"s", "T", "", ["a"], [], [⟨"d", "r"⟩], [], ["x", "y"], [], none⟩ := by decide

example : Trigger.isHandoffTrigger "handoff".toList = true := by decide
example : Trigger.isHandoffTrigger "Handoff".toList = true := by decide
example : Trigger.isHandoffTrigger "HANDOFF".toList = true := by decide
example : Trigger.isHandoffTrigger "  handoff  ".toList = true := by decide
example : Trigger.isHandoffTrigger "/handoff".toList = true := by decide
example : Trigger.isHandoffTrigger "  /Handoff  ".toList = true := by decide
example : Trigger.isHandoffTrigger "session handoff".toList = true := by decide
example : Trigger.isHandoffTrigger "Session Handoff".toList = true := by decide
example : Trigger.isHandoffTrigger "handoff implement login".toList = true := by decide
example : Trigger.isHandoffTrigger "/handoff fix tests".toList = true := by decide
example : Trigger.isHandoffTrigger "implement handoff feature".toList = false := by decide
example : Trigger.isHandoffTrigger "hello world".toList = false := by decide
example : Trigger.isHandoffTrigger "hand off the work".toList = false := by decide
example : Trigger.extractGoalFromHandoff "handoff implement login".toList = some "implement login".toList := by decide
example : Trigger.extractGoalFromHandoff "Handoff Create PR".toList = some "Create PR".toList := by decide
example : Trigger.extractGoalFromHandoff "/handoff fix tests".toList = some "fix tests".toList := by decide
example : Trigger.extractGoalFromHandoff "handoff".toList = none := by decide
example : Trigger.extractGoalFromHandoff "/handoff".toList = none := by decide
example : Trigger.extractGoalFromHandoff "  handoff  ".toList = none := by decide
example : Trigger.extractGoalFromHandoff "handoff   ".toList = none := by decide
example : Trigger.extractGoalFromHandoff "hello world".toList = none := by decide
example : Trigger.extractGoalFromHandoff "session handoff".toList = none := by decide

theorem dropWhile_fix_head {α : Type} {p : α → Bool} {c : α} {rest : List α}
    (h : List.dropWhile p (c :: rest) = c :: rest) : p c = false := by
  by_cases hc : p c = true
  · exfalso
    rw [List.dropWhile_cons_of_pos hc] at h
    have hle : (List.dropWhile p rest).length ≤ rest.length :=
      (List.dropWhile_sublist _).length_le
    rw [h] at hle
    simp at hle
  · exact Bool.eq_false_iff.mpr hc

theorem trimRight_last_not_wsp {G : List Char} (hR : Trigger.trimRight G = G)
    (hne : G ≠ []) : ∃ c s, G.reverse = c :: s ∧ Trigger.wsp c = false := by
  cases hrev : G.reverse with
  | nil => exact absurd (List.reverse_eq_nil_iff.mp hrev) hne
  | cons c s =>
    have h2 : G.reverse.dropWhile Trigger.wsp = G.reverse := by
      have h3 := congrArg List.reverse hR
      unfold Trigger.trimRight at h3
      rw [List.reverse_reverse] at h3
      exact h3
    rw [hrev] at h2
    exact ⟨c, s, rfl, dropWhile_fix_head h2⟩

theorem trimRight_append {a G : List Char} (hR : Trigger.trimRight G = G)
    (hne : G ≠ []) : Trigger.trimRight (a ++ G) = a ++ G := by
  obtain ⟨c, s, hrev, hc⟩ := trimRight_last_not_wsp hR hne
  unfold Trigger.trimRight
  rw [List.reverse_append, hrev, List.cons_append,
    List.dropWhile_cons_of_neg (by simp [hc]), ← List.cons_append, ← hrev,
    ← List.reverse_append, List.reverse_reverse]

theorem trim_cons_space {G : List Char} (hL : Trigger.trimLeft G = G)
    (hR : Trigger.trimRight G = G) : Trigger.trim (' ' :: G) = G := by
  unfold Trigger.trim
  have h1 : Trigger.trimLeft (' ' :: G) = Trigger.trimLeft G := by
    unfold Trigger.trimLeft
    rw [List.dropWhile_cons_of_pos (by decide)]
  rw [h1, hL, hR]

theorem startsWithCI_self_append (tok rest : List Char) :
    Trigger.startsWithCI tok (tok ++ rest) = true := by
  induction tok with
  | nil => rfl
  | cons c cs ih => simp [Trigger.startsWithCI, Trigger.eqCI, ih]

theorem strEqCI_length {a b : List Char} (h : Trigger.strEqCI a b = true) :
    a.length = b.length := by
  induction a generalizing b with
  | nil => cases b with
    | nil => rfl
    | cons d ds => simp [Trigger.strEqCI] at h
  | cons c cs ih => cases b with
    | nil => simp [Trigger.strEqCI] at h
    | cons d ds =>
      rw [Trigger.strEqCI, Bool.and_eq_true] at h
      simp [ih h.2]

theorem hasGoalAfter_of_short {tok t : List Char} (h : t.length ≤ tok.length) :
    Trigger.hasGoalAfter tok t = false := by
  unfold Trigger.hasGoalAfter
  rw [List.drop_eq_nil_of_le h]
  simp

theorem hasGoalAfter_true_elim {tok t : List Char}
    (h : Trigger.hasGoalAfter tok t = true) :
    Trigger.startsWithCI tok t = true ∧
      ∃ c rest, t.drop tok.length = c :: rest ∧ Trigger.wsp c = true ∧
        Trigger.trim (c :: rest) ≠ [] := by
  unfold Trigger.hasGoalAfter at h
  rw [Bool.and_eq_true] at h
  refine ⟨h.1, ?_⟩
  have h2 := h.2
  split at h2
  · exact absurd h2 (by simp)
  · rw [Bool.and_eq_true] at h2
    refine ⟨_, _, (by assumption), h2.1, ?_⟩
    have h3 := h2.2
    simpa [List.isEmpty_iff] using h3

theorem trimLeft_handoff_space (G : List Char) :
    Trigger.trimLeft (Trigger.handoffTok ++ ' ' :: G) = Trigger.handoffTok ++ ' ' :: G := by
  unfold Trigger.trimLeft
  rw [show Trigger.handoffTok ++ ' ' :: G =
      'h' :: ('a' :: 'n' :: 'd' :: 'o' :: 'f' :: 'f' :: ' ' :: G) from rfl]
  rw [List.dropWhile_cons_of_neg (by decide)]

theorem trimLeft_slash_handoff_space (G : List Char) :
    Trigger.trimLeft (Trigger.slashHandoffTok ++ ' ' :: G) =
      Trigger.slashHandoffTok ++ ' ' :: G := by
  unfold Trigger.trimLeft
  rw [show Trigger.slashHandoffTok ++ ' ' :: G =
      '/' :: ('h' :: 'a' :: 'n' :: 'd' :: 'o' :: 'f' :: 'f' :: ' ' :: G) from rfl]
  rw [List.dropWhile_cons_of_neg (by decide)]

theorem trim_handoff_space {G : List Char} (hne : G ≠ [])
    (hR : Trigger.trimRight G = G) :
    Trigger.trim (Trigger.handoffTok ++ ' ' :: G) = Trigger.handoffTok ++ ' ' :: G := by
  unfold Trigger.trim
  rw [trimLeft_handoff_space]
  rw [show Trigger.handoffTok ++ ' ' :: G = (Trigger.handoffTok ++ [' ']) ++ G by simp]
  exact trimRight_append hR hne

theorem trim_slash_handoff_space {G : List Char} (hne : G ≠ [])
    (hR : Trigger.trimRight G = G) :
    Trigger.trim (Trigger.slashHandoffTok ++ ' ' :: G) =
      Trigger.slashHandoffTok ++ ' ' :: G := by
  unfold Trigger.trim
  rw [trimLeft_slash_handoff_space]
  rw [show Trigger.slashHandoffTok ++ ' ' :: G =
      (Trigger.slashHandoffTok ++ [' ']) ++ G by simp]
  exact trimRight_append hR hne

theorem hasGoalAfter_handoff_space {G : List Char} (hne : G ≠ [])
    (hL : Trigger.trimLeft G = G) (hR : Trigger.trimRight G = G) :
    Trigger.hasGoalAfter Trigger.handoffTok (Trigger.handoffTok ++ ' ' :: G) = true := by
  unfold Trigger.hasGoalAfter
  rw [startsWithCI_self_append, List.drop_left, Bool.true_and]
  show (Trigger.wsp ' ' && !(Trigger.trim (' ' :: G)).isEmpty) = true
  rw [trim_cons_space hL hR, (by decide : Trigger.wsp ' ' = true), Bool.true_and]
  simp [List.isEmpty_iff, hne]

theorem hasGoalAfter_slash_handoff_space {G : List Char} (hne : G ≠ [])
    (hL : Trigger.trimLeft G = G) (hR : Trigger.trimRight G = G) :
    Trigger.hasGoalAfter Trigger.slashHandoffTok
      (Trigger.slashHandoffTok ++ ' ' :: G) = true := by
  unfold Trigger.hasGoalAfter
  rw [startsWithCI_self_append, List.drop_left, Bool.true_and]
  show (Trigger.wsp ' ' && !(Trigger.trim (' ' :: G)).isEmpty) = true
  rw [trim_cons_space hL hR, (by decide : Trigger.wsp ' ' = true), Bool.true_and]
  simp [List.isEmpty_iff, hne]

theorem hasGoalAfter_slash_of_handoff (G : List Char) :
    Trigger.hasGoalAfter Trigger.slashHandoffTok (Trigger.handoffTok ++ ' ' :: G) = false := by
  unfold Trigger.hasGoalAfter
  rw [show Trigger.handoffTok ++ ' ' :: G =
      'h' :: ('a' :: 'n' :: 'd' :: 'o' :: 'f' :: 'f' :: ' ' :: G) from rfl]
  rw [show Trigger.startsWithCI Trigger.slashHandoffTok
      ('h' :: ('a' :: 'n' :: 'd' :: 'o' :: 'f' :: 'f' :: ' ' :: G)) =
      (Trigger.eqCI '/' 'h' && Trigger.startsWithCI ['h', 'a', 'n', 'd', 'o', 'f', 'f']
        ('a' :: 'n' :: 'd' :: 'o' :: 'f' :: 'f' :: ' ' :: G)) from rfl]
  rw [(by decide : Trigger.eqCI '/' 'h' = false)]
  simp

/-- C3 (amended with the non-emptiness of G forced by the counterexample):
for every non-empty goal string G with no leading or trailing whitespace
and no newline, the message obtained by appending G to the text handoff
followed by one space is recognized by isHandoffTrigger, and
extractGoalFromHandoff returns exactly G with its casing preserved; the
same holds with the /handoff prefix in place of handoff. -/
theorem c3_trigger_goal_round_trip (G : List Char) (hne : G ≠ [])
    (hL : Trigger.trimLeft G = G) (hR : Trigger.trimRight G = G)
    (hnl : '\n' ∉ G) :
    Trigger.isHandoffTrigger (Trigger.handoffTok ++ ' ' :: G) = true ∧
    Trigger.extractGoalFromHandoff (Trigger.handoffTok ++ ' ' :: G) = some G ∧
    Trigger.isHandoffTrigger (Trigger.slashHandoffTok ++ ' ' :: G) = true ∧
    Trigger.extractGoalFromHandoff (Trigger.slashHandoffTok ++ ' ' :: G) = some G := by
  have ht1 := trim_handoff_space hne hR
  have ht2 := trim_slash_handoff_space hne hR
  have hg1 := hasGoalAfter_handoff_space hne hL hR
  have hg2 := hasGoalAfter_slash_handoff_space hne hL hR
  have hg3 := hasGoalAfter_slash_of_handoff G
  refine ⟨?_, ?_, ?_, ?_⟩
  · simp only [Trigger.isHandoffTrigger]
    rw [ht1, hg1]
    simp
  · simp only [Trigger.extractGoalFromHandoff]
    rw [ht1, hg3, hg1]
    simp only [Bool.false_eq_true, if_false, if_true, List.drop_left]
    rw [trim_cons_space hL hR]
  · simp only [Trigger.isHandoffTrigger]
    rw [ht2, hg2]
    simp
  · simp only [Trigger.extractGoalFromHandoff]
    rw [ht2, hg2]
    simp only [if_true, List.drop_left]
    rw [trim_cons_space hL hR]

/-- C3 witness: the claim instantiated at the concrete goal Fix. -/
theorem c3_trigger_goal_round_trip_witness :
    ((['F', 'i', 'x'] : List Char) ≠ [] ∧
     Trigger.trimLeft ['F', 'i', 'x'] = ['F', 'i', 'x'] ∧
     Trigger.trimRight ['F', 'i', 'x'] = ['F', 'i', 'x'] ∧
     '\n' ∉ (['F', 'i', 'x'] : List Char)) ∧
    (Trigger.isHandoffTrigger (Trigger.handoffTok ++ ' ' :: ['F', 'i', 'x']) = true ∧
     Trigger.extractGoalFromHandoff (Trigger.handoffTok ++ ' ' :: ['F', 'i', 'x']) =
       some ['F', 'i', 'x'] ∧
     Trigger.isHandoffTrigger (Trigger.slashHandoffTok ++ ' ' :: ['F', 'i', 'x']) = true ∧
     Trigger.extractGoalFromHandoff (Trigger.slashHandoffTok ++ ' ' :: ['F', 'i', 'x']) =
       some ['F', 'i', 'x']) :=
  ⟨⟨by decide, by decide, by decide, by decide⟩,
   c3_trigger_goal_round_trip ['F', 'i', 'x'] (by decide) (by decide) (by decide) (by decide)⟩

/-- C3 counterexample: the empty goal string has no leading or trailing
whitespace and no newline, yet extractGoalFromHandoff applied to handoff
followed by a space and the empty goal returns the absence signal, not the
empty goal, so the claim fails as stated for G empty. -/
theorem c3_trigger_goal_round_trip_cex :
    Trigger.trimLeft ([] : List Char) = [] ∧
    Trigger.trimRight ([] : List Char) = [] ∧
    '\n' ∉ ([] : List Char) ∧
    Trigger.isHandoffTrigger (Trigger.handoffTok ++ ' ' :: ([] : List Char)) = true ∧
    Trigger.extractGoalFromHandoff (Trigger.handoffTok ++ ' ' :: ([] : List Char)) ≠
      some [] := by decide

theorem startsWithCI_handoff_of_eqCI_slash {t : List Char}
    (h : Trigger.strEqCI t Trigger.slashHandoffTok = true) :
    Trigger.startsWithCI Trigger.handoffTok t = false := by
  cases t with
  | nil => exact absurd h (by decide)
  | cons c cs =>
    have h1 : Trigger.eqCI c '/' = true := by
      rw [show Trigger.strEqCI (c :: cs) Trigger.slashHandoffTok =
          (Trigger.eqCI c '/' &&
            Trigger.strEqCI cs ['h', 'a', 'n', 'd', 'o', 'f', 'f']) from rfl,
        Bool.and_eq_true] at h
      exact h.1
    have h2 : Trigger.lowerChar c = '/' := by
      have h3 : Trigger.lowerChar c = Trigger.lowerChar '/' := eq_of_beq h1
      simpa using h3
    rw [show Trigger.startsWithCI Trigger.handoffTok (c :: cs) =
        (Trigger.eqCI 'h' c &&
          Trigger.startsWithCI ['a', 'n', 'd', 'o', 'f', 'f'] cs) from rfl]
    have h4 : Trigger.eqCI 'h' c = false := by
      unfold Trigger.eqCI
      rw [h2]
      decide
    rw [h4]
    simp

/-- C4: extractGoalFromHandoff returns the absence signal none whenever the
trimmed input is exactly one of the trigger words handoff or /handoff
(surrounding whitespace and trailing whitespace-only content disappear in
the trimming), for the concrete input session handoff, and whenever the
trimmed input starts with neither trigger token; it never returns an empty
goal; and it returns a goal only when the trimmed input case-insensitively
starts with handoff or /handoff followed by a whitespace character and at
least one non-whitespace character. -/
theorem c4_extract_goal_absence :
    (∀ msg : List Char,
        (Trigger.strEqCI (Trigger.trim msg) Trigger.handoffTok = true ∨
         Trigger.strEqCI (Trigger.trim msg) Trigger.slashHandoffTok = true) →
        Trigger.extractGoalFromHandoff msg = none) ∧
    Trigger.extractGoalFromHandoff Trigger.sessionHandoffTok = none ∧
    (∀ msg : List Char,
        Trigger.startsWithCI Trigger.handoffTok (Trigger.trim msg) = false →
        Trigger.startsWithCI Trigger.slashHandoffTok (Trigger.trim msg) = false →
        Trigger.extractGoalFromHandoff msg = none) ∧
    (∀ msg : List Char, Trigger.extractGoalFromHandoff msg ≠ some []) ∧
    (∀ msg g, Trigger.extractGoalFromHandoff msg = some g →
        (Trigger.startsWithCI Trigger.handoffTok (Trigger.trim msg) = true ∧
         ∃ c rest, (Trigger.trim msg).drop Trigger.handoffTok.length = c :: rest ∧
           Trigger.wsp c = true ∧ Trigger.trim (c :: rest) ≠ []) ∨
        (Trigger.startsWithCI Trigger.slashHandoffTok (Trigger.trim msg) = true ∧
         ∃ c rest, (Trigger.trim msg).drop Trigger.slashHandoffTok.length = c :: rest ∧
           Trigger.wsp c = true ∧ Trigger.trim (c :: rest) ≠ [])) := by
  refine ⟨?_, by decide, ?_, ?_, ?_⟩
  · intro msg h
    have hfalse1 : Trigger.hasGoalAfter Trigger.handoffTok (Trigger.trim msg) = false := by
      rcases h with h | h
      · exact hasGoalAfter_of_short (le_of_eq (strEqCI_length h))
      · have hsw := startsWithCI_handoff_of_eqCI_slash h
        unfold Trigger.hasGoalAfter
        rw [hsw]
        simp
    have hfalse2 : Trigger.hasGoalAfter Trigger.slashHandoffTok (Trigger.trim msg) = false := by
      rcases h with h | h
      · have hlen := strEqCI_length h
        exact hasGoalAfter_of_short (by rw [hlen]; decide)
      · exact hasGoalAfter_of_short (le_of_eq (strEqCI_length h))
    simp only [Trigger.extractGoalFromHandoff]
    rw [hfalse1, hfalse2]
    simp
  · intro msg h1 h2
    have hfalse1 : Trigger.hasGoalAfter Trigger.handoffTok (Trigger.trim msg) = false := by
      unfold Trigger.hasGoalAfter
      rw [h1]
      simp
    have hfalse2 : Trigger.hasGoalAfter Trigger.slashHandoffTok (Trigger.trim msg) = false := by
      unfold Trigger.hasGoalAfter
      rw [h2]
      simp
    simp only [Trigger.extractGoalFromHandoff]
    rw [hfalse1, hfalse2]
    simp
  · intro msg h
    simp only [Trigger.extractGoalFromHandoff] at h
    split at h
    · rename_i hc
      obtain ⟨hsw, c, rest, hd, hwc, hnemp⟩ := hasGoalAfter_true_elim hc
      rw [hd] at h
      exact hnemp (Option.some.inj h)
    · split at h
      · rename_i hc
        obtain ⟨hsw, c, rest, hd, hwc, hnemp⟩ := hasGoalAfter_true_elim hc
        rw [hd] at h
        exact hnemp (Option.some.inj h)
      · exact absurd h (by simp)
  · intro msg g h
    simp only [Trigger.extractGoalFromHandoff] at h
    split at h
    · rename_i hc
      exact Or.inr (hasGoalAfter_true_elim hc)
    · split at h
      · rename_i hc
        exact Or.inl (hasGoalAfter_true_elim hc)
      · exact absurd h (by simp)

/-- C4 witness: the absence contract applied to the concrete message
consisting of the word Handoff surrounded by whitespace. -/
theorem c4_extract_goal_absence_witness :
    Trigger.strEqCI (Trigger.trim [' ', 'H', 'a', 'n', 'd', 'o', 'f', 'f', ' ', ' '])
      Trigger.handoffTok = true ∧
    Trigger.extractGoalFromHandoff [' ', 'H', 'a', 'n', 'd', 'o', 'f', 'f', ' ', ' '] = none :=
  ⟨by decide,
   c4_extract_goal_absence.1 [' ', 'H', 'a', 'n', 'd', 'o', 'f', 'f', ' ', ' ']
     (Or.inl (by decide))⟩

/-- C2: in both formats, for every non-empty todo list, the ratio line
shows the count of entries whose status is exactly completed over the
total number of entries, and the in-progress and pending lines list, in
input order, exactly the content values of the entries with those
statuses, each line being omitted when its filtered list is empty;
entries with any other status are counted in the denominator only. -/
theorem c2_todos_ratio (todos : List Todo) (h : todos ≠ []) :
    Compact.buildTodosSection (some todos) =
      ["", "**Todos:** " ++
          toString (todos.countP (fun t => t.status == "completed")) ++ "/" ++
          toString todos.length ++ " done"]
      ++ (if todos.filter (fun t => t.status == "in_progress") = [] then []
          else ["- In progress: " ++ String.intercalate ", "
              ((todos.filter (fun t => t.status == "in_progress")).map (fun t => t.content))])
      ++ (if todos.filter (fun t => t.status == "pending") = [] then []
          else ["- Pending: " ++ String.intercalate ", "
              ((todos.filter (fun t => t.status == "pending")).map (fun t => t.content))]) ∧
    Detailed.buildTodosSection (some todos) =
      ["", "### Todos",
          toString (todos.countP (fun t => t.status == "completed")) ++ "/" ++
          toString todos.length ++ " complete"]
      ++ (if todos.filter (fun t => t.status == "in_progress") = [] then []
          else ["In progress: " ++ String.intercalate ", "
              ((todos.filter (fun t => t.status == "in_progress")).map (fun t => t.content))])
      ++ (if todos.filter (fun t => t.status == "pending") = [] then []
          else ["Pending: " ++ String.intercalate ", "
              ((todos.filter (fun t => t.status == "pending")).map (fun t => t.content))]) := by
  constructor <;>
  · by_cases hip : todos.filter (fun t => t.status == "in_progress") = [] <;>
      by_cases hp : todos.filter (fun t => t.status == "pending") = [] <;>
        simp [Compact.buildTodosSection, Detailed.buildTodosSection,
          List.countP_eq_length_filter, List.length_eq_zero, List.length_pos,
          h, hip, hp]

/-- C2 witness: the ratio at a todo list with an unrecognized status. -/
theorem c2_todos_ratio_witness :
    ([⟨"a", "completed"⟩, ⟨"b", "weird"⟩, ⟨"c", "pending"⟩] : List Todo) ≠ [] ∧
    (Compact.buildTodosSection (some [⟨"a", "completed"⟩, ⟨"b", "weird"⟩, ⟨"c", "pending"⟩]) =
        ["", "**Todos:** " ++
            toString (([⟨"a", "completed"⟩, ⟨"b", "weird"⟩, ⟨"c", "pending"⟩] : List Todo).countP
              (fun t => t.status == "completed")) ++ "/" ++
            toString ([⟨"a", "completed"⟩, ⟨"b", "weird"⟩, ⟨"c", "pending"⟩] : List Todo).length ++
            " done"]
        ++ (if ([⟨"a", "completed"⟩, ⟨"b", "weird"⟩, ⟨"c", "pending"⟩] : List Todo).filter
              (fun t => t.status == "in_progress") = [] then []
            else ["- In progress: " ++ String.intercalate ", "
                ((([⟨"a", "completed"⟩, ⟨"b", "weird"⟩, ⟨"c", "pending"⟩] : List Todo).filter
                  (fun t => t.status == "in_progress")).map (fun t => t.content))])
        ++ (if ([⟨"a", "completed"⟩, ⟨"b", "weird"⟩, ⟨"c", "pending"⟩] : List Todo).filter
              (fun t => t.status == "pending") = [] then []
            else ["- Pending: " ++ String.intercalate ", "
                ((([⟨"a", "completed"⟩, ⟨"b", "weird"⟩, ⟨"c", "pending"⟩] : List Todo).filter
                  (fun t => t.status == "pending")).map (fun t => t.content))]) ∧
      Detailed.buildTodosSection (some [⟨"a", "completed"⟩, ⟨"b", "weird"⟩, ⟨"c", "pending"⟩]) =
        ["", "### Todos",
            toString (([⟨"a", "completed"⟩, ⟨"b", "weird"⟩, ⟨"c", "pending"⟩] : List Todo).countP
              (fun t => t.status == "completed")) ++ "/" ++
            toString ([⟨"a", "completed"⟩, ⟨"b", "weird"⟩, ⟨"c", "pending"⟩] : List Todo).length ++
            " complete"]
        ++ (if ([⟨"a", "completed"⟩, ⟨"b", "weird"⟩, ⟨"c", "pending"⟩] : List Todo).filter
              (fun t => t.status == "in_progress") = [] then []
            else ["In progress: " ++ String.intercalate ", "
                ((([⟨"a", "completed"⟩, ⟨"b", "weird"⟩, ⟨"c", "pending"⟩] : List Todo).filter
                  (fun t => t.status == "in_progress")).map (fun t => t.content))])
        ++ (if ([⟨"a", "completed"⟩, ⟨"b", "weird"⟩, ⟨"c", "pending"⟩] : List Todo).filter
              (fun t => t.status == "pending") = [] then []
            else ["Pending: " ++ String.intercalate ", "
                ((([⟨"a", "completed"⟩, ⟨"b", "weird"⟩, ⟨"c", "pending"⟩] : List Todo).filter
                  (fun t => t.status == "pending")).map (fun t => t.content))])) :=
  ⟨by decide, c2_todos_ratio [⟨"a", "completed"⟩, ⟨"b", "weird"⟩, ⟨"c", "pending"⟩] (by decide)⟩

/-- C5: when the summary-or-task text is empty, the Detailed format
renders the literal fallback Continue previous work under the Task
heading, while the Compact format emits the empty text verbatim as an
empty third line, with no fallback substitution. -/
theorem c5_task_fallback (dargs : Detailed.HandoffArgs) (cargs : Compact.HandoffArgs)
    (hd : dargs.task = "") (hc : cargs.summary = "") :
    (Detailed.promptLines dargs).take 4 =
      ["## Handoff Continuation Prompt", "", "### Task", "Continue previous work"] ∧
    (Compact.promptLines cargs).take 3 = ["## Session Handoff", "", ""] ∧
    (∀ args : Compact.HandoffArgs,
        (Compact.promptLines args).take 3 = ["## Session Handoff", "", args.summary]) := by
  refine ⟨?_, ?_, ?_⟩
  · simp [Detailed.promptLines, hd]
  · simp [Compact.promptLines, hc]
  · intro args
    simp [Compact.promptLines]

/-- C5 witness: the fallback and the verbatim empty line at concrete
arguments whose task and summary are empty. -/
theorem c5_task_fallback_witness :
    ((⟨"s", "", "", [], [], [], [], [], [], none⟩ : Detailed.HandoffArgs).task = "" ∧
     (⟨"s", "", "", [], [], [], [], [], [], none⟩ : Compact.HandoffArgs).summary = "") ∧
    ((Detailed.promptLines ⟨"s", "", "", [], [], [], [], [], [], none⟩).take 4 =
       ["## Handoff Continuation Prompt", "", "### Task", "Continue previous work"] ∧
     (Compact.promptLines ⟨"s", "", "", [], [], [], [], [], [], none⟩).take 3 =
       ["## Session Handoff", "", ""] ∧
     (∀ args : Compact.HandoffArgs,
         (Compact.promptLines args).take 3 = ["## Session Handoff", "", args.summary])) :=
  ⟨⟨rfl, rfl⟩,
   c5_task_fallback ⟨"s", "", "", [], [], [], [], [], [], none⟩
     ⟨"s", "", "", [], [], [], [], [], [], none⟩ rfl rfl⟩

/-- C6: in Compact format a decision with non-empty reason renders as the
decision followed by the reason in parentheses and a decision with empty
reason renders as the decision alone, all joined with a semicolon and a
space on one line; in Detailed format every decision renders as a bullet
with a colon and space between decision and reason, even when the reason
is empty. -/
theorem c6_decisions_rendering (ds : List Decision) (h : ds ≠ []) :
    Compact.buildDecisionsSection ds =
      ["", "**Decisions:** " ++ String.intercalate "; "
        (ds.map (fun d => if d.reason = "" then d.decision
                          else d.decision ++ " (" ++ d.reason ++ ")"))] ∧
    Detailed.buildDecisionsSection ds =
      ["", "### Decisions Made"] ++
        ds.map (fun d => "- " ++ d.decision ++ ": " ++ d.reason) := by
  constructor <;>
    simp [Compact.buildDecisionsSection, Detailed.buildDecisionsSection,
      List.length_eq_zero, h]

/-- C6 witness: the rendering at one decision with a reason and one
without. -/
theorem c6_decisions_rendering_witness :
    ([⟨"Use ESM", "Better tree-shaking"⟩, ⟨"Use tabs", ""⟩] : List Decision) ≠ [] ∧
    (Compact.buildDecisionsSection [⟨"Use ESM", "Better tree-shaking"⟩, ⟨"Use tabs", ""⟩] =
      ["", "**Decisions:** " ++ String.intercalate "; "
        (([⟨"Use ESM", "Better tree-shaking"⟩, ⟨"Use tabs", ""⟩] : List Decision).map
          (fun d => if d.reason = "" then d.decision
                    else d.decision ++ " (" ++ d.reason ++ ")"))] ∧
     Detailed.buildDecisionsSection [⟨"Use ESM", "Better tree-shaking"⟩, ⟨"Use tabs", ""⟩] =
      ["", "### Decisions Made"] ++
        ([⟨"Use ESM", "Better tree-shaking"⟩, ⟨"Use tabs", ""⟩] : List Decision).map
          (fun d => "- " ++ d.decision ++ ": " ++ d.reason)) :=
  ⟨by decide,
   c6_decisions_rendering [⟨"Use ESM", "Better tree-shaking"⟩, ⟨"Use tabs", ""⟩] (by decide)⟩

theorem enumFrom_map_numberFrom (steps : List String) :
    ∀ k, (List.enumFrom k steps).map (fun p => toString (p.1 + 1) ++ ". " ++ p.2) =
      numberFrom (k + 1) steps := by
  induction steps with
  | nil => intro k; rfl
  | cons s rest ih => intro k; simp [List.enumFrom, numberFrom, ih (k + 1)]

/-- C9: a next-steps list of length N renders with the labels 1. through
N. attached to the steps in input order; in Compact format they appear
space-separated on the single Next line, and in Detailed format each
numbered step is its own line under the Next Steps heading. -/
theorem c9_next_steps_numbering (steps : List String) (h : steps ≠ []) :
    Compact.buildNextStepsSection steps =
      ["", "**Next:** " ++ String.intercalate " " (numberFrom 1 steps)] ∧
    Detailed.buildNextStepsSection steps =
      ["", "### Next Steps"] ++ numberFrom 1 steps := by
  have he : steps.enum.map (fun p => toString (p.1 + 1) ++ ". " ++ p.2) =
      numberFrom 1 steps := by
    simpa using enumFrom_map_numberFrom steps 0
  constructor <;>
    simp [Compact.buildNextStepsSection, Detailed.buildNextStepsSection,
      List.length_eq_zero, h, he]

/-- C9 witness: the numbering at two concrete steps. -/
theorem c9_next_steps_numbering_witness :
    (["Fix tests", "Update docs"] : List String) ≠ [] ∧
    (Compact.buildNextStepsSection ["Fix tests", "Update docs"] =
      ["", "**Next:** " ++ String.intercalate " " (numberFrom 1 ["Fix tests", "Update docs"])] ∧
     Detailed.buildNextStepsSection ["Fix tests", "Update docs"] =
      ["", "### Next Steps"] ++ numberFrom 1 ["Fix tests", "Update docs"]) :=
  ⟨by decide, c9_next_steps_numbering ["Fix tests", "Update docs"] (by decide)⟩

/-- C1 (amended as the counterexample forces): in Compact format, for
every input, the rendered document ends with a blank line, a line of three
dashes, and then exactly one line reading Previous: backquoted
previousSessionId, separator, Use read_session if you need more context —
where previousSessionId is interpolated verbatim and the separator between
the previousSessionId segment and the Use segment is the two-character
sequence U+00C2 U+00B7 (the source literal carries these two characters,
not a single middle dot). -/
theorem c1_compact_footer (args : Compact.HandoffArgs) :
    ∃ pre, Compact.promptLines args =
      pre ++ ["", "---",
        "Previous: `" ++ args.previousSessionId ++
          "` Â· Use `read_session` if you need more context."] :=
  ⟨["## Session Handoff", "", args.summary]
    ++ Compact.buildBlockedSection args.blocked
    ++ Compact.buildTodosSection args.todos
    ++ Compact.buildFilesSection args.modified_files
    ++ Compact.buildDecisionsSection args.decisions
    ++ Compact.buildNextStepsSection args.next_steps, rfl⟩

/-- C1 counterexample: at concrete arguments the last line of the Compact
document carries the two-character separator U+00C2 U+00B7 and is not the
line with the single middle-dot separator U+00B7 that the claim states. -/
theorem c1_compact_footer_cex :
    (Compact.promptLines ⟨"ses_123", "", "", [], [], [], [], [], [], none⟩).getLast? =
      some "Previous: `ses_123` Â· Use `read_session` if you need more context." ∧
    (Compact.promptLines ⟨"ses_123", "", "", [], [], [], [], [], [], none⟩).getLast? ≠
      some "Previous: `ses_123` · Use `read_session` if you need more context." := by
  decide

/-- C8 (amended as the counterexample forces): the Blocked section, that
is the lines contributed by the blocked field, is present if and only if
blocked is non-empty and different from the literal none, in which case it
renders the verbatim blocked text with its marker, in both formats; and
whenever that condition holds the marker line appears in the rendered
document.  The unconditional converse at whole-document level does not
hold, since another field may contain the marker text. -/
theorem c8_blocked_presence :
    (∀ b : String,
        (Compact.buildBlockedSection b = [] ↔ (b = "" ∨ b = "none")) ∧
        (Detailed.buildBlockedSection b = [] ↔ (b = "" ∨ b = "none")) ∧
        (b ≠ "" → b ≠ "none" →
          Compact.buildBlockedSection b = ["", "**Blocked:** " ++ b] ∧
          Detailed.buildBlockedSection b = ["", "### Blocked", b])) ∧
    (∀ args : Compact.HandoffArgs, args.blocked ≠ "" → args.blocked ≠ "none" →
        ("**Blocked:** " ++ args.blocked) ∈ Compact.promptLines args) ∧
    (∀ args : Detailed.HandoffArgs, args.blocked ≠ "" → args.blocked ≠ "none" →
        "### Blocked" ∈ Detailed.promptLines args ∧
        args.blocked ∈ Detailed.promptLines args) := by
  refine ⟨?_, ?_, ?_⟩
  · intro b
    refine ⟨?_, ?_, ?_⟩
    · constructor
      · intro hb
        by_contra hc
        push_neg at hc
        simp [Compact.buildBlockedSection, hc.1, hc.2] at hb
      · intro hb
        simp [Compact.buildBlockedSection, hb]
    · constructor
      · intro hb
        by_contra hc
        push_neg at hc
        simp [Detailed.buildBlockedSection, hc.1, hc.2] at hb
      · intro hb
        simp [Detailed.buildBlockedSection, hb]
    · intro h1 h2
      constructor <;> simp [Compact.buildBlockedSection, Detailed.buildBlockedSection, h1, h2]
  · intro args h1 h2
    simp [Compact.promptLines, Compact.buildBlockedSection, h1, h2, List.mem_append]
  · intro args h1 h2
    constructor <;>
      simp [Detailed.promptLines, Detailed.buildBlockedSection, h1, h2, List.mem_append]

/-- C8 witness: the marker appearing for a concrete non-empty blocked
value. -/
theorem c8_blocked_presence_witness :
    ((⟨"s", "T", "Waiting", [], [], [], [], [], [], none⟩ : Detailed.HandoffArgs).blocked ≠ "" ∧
     (⟨"s", "T", "Waiting", [], [], [], [], [], [], none⟩ : Detailed.HandoffArgs).blocked ≠ "none") ∧
    ("### Blocked" ∈ Detailed.promptLines ⟨"s", "T", "Waiting", [], [], [], [], [], [], none⟩ ∧
     (⟨"s", "T", "Waiting", [], [], [], [], [], [], none⟩ : Detailed.HandoffArgs).blocked ∈
       Detailed.promptLines ⟨"s", "T", "Waiting", [], [], [], [], [], [], none⟩) :=
  ⟨⟨by decide, by decide⟩,
   c8_blocked_presence.2.2 ⟨"s", "T", "Waiting", [], [], [], [], [], [], none⟩
     (by decide) (by decide)⟩

/-- C8 counterexample: with blocked empty but the task text equal to the
marker string, the marker line appears in the Detailed output although the
blocked condition is false, so the unconditional if-and-only-if at
document level fails as stated. -/
theorem c8_blocked_presence_cex :
    (⟨"s", "### Blocked", "", [], [], [], [], [], [], none⟩ : Detailed.HandoffArgs).blocked = "" ∧
    "### Blocked" ∈ Detailed.promptLines ⟨"s", "### Blocked", "", [], [], [], [], [], [], none⟩ := by
  decide

theorem str_append_ne_of_left {a : String} (b : String) (h : a ≠ "") : a ++ b ≠ "" := by
  intro hab
  apply h
  have h2 := congrArg String.data hab
  rw [String.data_append, show String.data "" = [] from rfl] at h2
  exact String.ext (by rw [(List.append_eq_nil.mp h2).1])

theorem str_append_ne_of_right (a : String) {b : String} (h : b ≠ "") : a ++ b ≠ "" := by
  intro hab
  apply h
  have h2 := congrArg String.data hab
  rw [String.data_append, show String.data "" = [] from rfl] at h2
  exact String.ext (by rw [(List.append_eq_nil.mp h2).2])

theorem mem_ite_singleton {c : Prop} [Decidable c] {x l : String}
    (h : l ∈ (if c then [x] else [])) : l = x := by
  split at h
  · simpa using h
  · simp at h

theorem sep_compact_blocked (b : String) : SepSection (Compact.buildBlockedSection b) := by
  by_cases h : b = "" ∨ b = "none"
  · left
    simp [Compact.buildBlockedSection, h]
  · right
    refine ⟨["**Blocked:** " ++ b], by simp [Compact.buildBlockedSection, h], by simp, ?_⟩
    intro l hl
    rw [show l = "**Blocked:** " ++ b by simpa using hl]
    exact str_append_ne_of_left _ (by decide)

theorem sep_compact_todos (todos : Option (List Todo)) :
    SepSection (Compact.buildTodosSection todos) := by
  cases todos with
  | none => exact Or.inl rfl
  | some ts =>
    by_cases h : ts.length = 0
    · left
      simp [Compact.buildTodosSection, h]
    · right
      refine ⟨["**Todos:** " ++
            toString (ts.filter (fun t => t.status == "completed")).length ++ "/" ++
            toString ts.length ++ " done"]
          ++ (if 0 < (ts.filter (fun t => t.status == "in_progress")).length then
                ["- In progress: " ++ String.intercalate ", "
                  ((ts.filter (fun t => t.status == "in_progress")).map (fun t => t.content))]
              else [])
          ++ (if 0 < (ts.filter (fun t => t.status == "pending")).length then
                ["- Pending: " ++ String.intercalate ", "
                  ((ts.filter (fun t => t.status == "pending")).map (fun t => t.content))]
              else []),
        by simp [Compact.buildTodosSection, h], by simp, ?_⟩
      intro l hl
      rw [List.append_assoc, List.mem_append] at hl
      rcases hl with hl | hl
      · rw [show l = "**Todos:** " ++
            toString (ts.filter (fun t => t.status == "completed")).length ++ "/" ++
            toString ts.length ++ " done" by simpa using hl]
        exact str_append_ne_of_right _ (by decide)
      · rw [List.mem_append] at hl
        rcases hl with hl | hl
        · rw [mem_ite_singleton hl]
          exact str_append_ne_of_left _ (by decide)
        · rw [mem_ite_singleton hl]
          exact str_append_ne_of_left _ (by decide)

theorem sep_compact_files (m : List String) : SepSection (Compact.buildFilesSection m) := by
  by_cases h : m.length = 0
  · left
    simp [Compact.buildFilesSection, h]
  · right
    refine ⟨["**Files:** " ++ String.intercalate ", " m],
      by simp [Compact.buildFilesSection, h], by simp, ?_⟩
    intro l hl
    rw [show l = "**Files:** " ++ String.intercalate ", " m by simpa using hl]
    exact str_append_ne_of_left _ (by decide)

theorem sep_compact_decisions (ds : List Decision) :
    SepSection (Compact.buildDecisionsSection ds) := by
  by_cases h : ds.length = 0
  · left
    simp [Compact.buildDecisionsSection, h]
  · right
    refine ⟨["**Decisions:** " ++ String.intercalate "; "
        (ds.map (fun d => if d.reason = "" then d.decision
                          else d.decision ++ " (" ++ d.reason ++ ")"))],
      by simp [Compact.buildDecisionsSection, h], by simp, ?_⟩
    intro l hl
    rw [show l = "**Decisions:** " ++ String.intercalate "; "
        (ds.map (fun d => if d.reason = "" then d.decision
                          else d.decision ++ " (" ++ d.reason ++ ")")) by simpa using hl]
    exact str_append_ne_of_left _ (by decide)

theorem sep_compact_next (steps : List String) :
    SepSection (Compact.buildNextStepsSection steps) := by
  by_cases h : steps.length = 0
  · left
    simp [Compact.buildNextStepsSection, h]
  · right
    refine ⟨["**Next:** " ++ String.intercalate " "
        (steps.enum.map (fun p => toString (p.1 + 1) ++ ". " ++ p.2))],
      by simp [Compact.buildNextStepsSection, h], by simp, ?_⟩
    intro l hl
    rw [show l = "**Next:** " ++ String.intercalate " "
        (steps.enum.map (fun p => toString (p.1 + 1) ++ ". " ++ p.2)) by simpa using hl]
    exact str_append_ne_of_left _ (by decide)

theorem sep_footer (pre : String) {post : String} (hpost : post ≠ "") :
    SepSection ["", "---", pre ++ post] := by
  right
  refine ⟨["---", pre ++ post], rfl, by simp, ?_⟩
  intro l hl
  rcases (by simpa using hl : l = "---" ∨ l = pre ++ post) with hl | hl
  · rw [hl]
    decide
  · rw [hl]
    exact str_append_ne_of_right _ hpost

theorem sep_detailed_blocked (b : String) : SepSection (Detailed.buildBlockedSection b) := by
  by_cases h : b = "" ∨ b = "none"
  · left
    simp [Detailed.buildBlockedSection, h]
  · right
    push_neg at h
    refine ⟨["### Blocked", b], by simp [Detailed.buildBlockedSection, not_or.mpr h],
      by simp, ?_⟩
    intro l hl
    rcases (by simpa using hl : l = "### Blocked" ∨ l = b) with hl | hl
    · rw [hl]
      decide
    · rw [hl]
      exact h.1

theorem sep_detailed_todos (todos : Option (List Todo)) :
    SepSection (Detailed.buildTodosSection todos) := by
  cases todos with
  | none => exact Or.inl rfl
  | some ts =>
    by_cases h : ts.length = 0
    · left
      simp [Detailed.buildTodosSection, h]
    · right
      refine ⟨["### Todos",
            toString (ts.filter (fun t => t.status == "completed")).length ++ "/" ++
            toString ts.length ++ " complete"]
          ++ (if 0 < (ts.filter (fun t => t.status == "in_progress")).length then
                ["In progress: " ++ String.intercalate ", "
                  ((ts.filter (fun t => t.status == "in_progress")).map (fun t => t.content))]
              else [])
          ++ (if 0 < (ts.filter (fun t => t.status == "pending")).length then
                ["Pending: " ++ String.intercalate ", "
                  ((ts.filter (fun t => t.status == "pending")).map (fun t => t.content))]
              else []),
        by simp [Detailed.buildTodosSection, h], by simp, ?_⟩
      intro l hl
      rw [List.append_assoc, List.mem_append] at hl
      rcases hl with hl | hl
      · rcases (by simpa using hl :
            l = "### Todos" ∨
            l = toString (ts.filter (fun t => t.status == "completed")).length ++ "/" ++
                toString ts.length ++ " complete") with hl | hl
        · rw [hl]
          decide
        · rw [hl]
          exact str_append_ne_of_right _ (by decide)
      · rw [List.mem_append] at hl
        rcases hl with hl | hl
        · rw [mem_ite_singleton hl]
          exact str_append_ne_of_left _ (by decide)
        · rw [mem_ite_singleton hl]
          exact str_append_ne_of_left _ (by decide)

theorem sep_detailed_files (m r : List String) :
    SepSection (Detailed.buildFilesSection m r) := by
  by_cases h : m.length = 0 ∧ r.length = 0
  · left
    simp [Detailed.buildFilesSection, h]
  · right
    refine ⟨["### Files"]
        ++ (if 0 < m.length then ["Modified: " ++ String.intercalate ", " m] else [])
        ++ (if 0 < r.length then ["Reference: " ++ String.intercalate ", " r] else []),
      by unfold Detailed.buildFilesSection; rw [if_neg h]; simp, by simp, ?_⟩
    intro l hl
    rw [List.append_assoc, List.mem_append] at hl
    rcases hl with hl | hl
    · rw [show l = "### Files" by simpa using hl]
      decide
    · rw [List.mem_append] at hl
      rcases hl with hl | hl
      · rw [mem_ite_singleton hl]
        exact str_append_ne_of_left _ (by decide)
      · rw [mem_ite_singleton hl]
        exact str_append_ne_of_left _ (by decide)

theorem sep_detailed_decisions (ds : List Decision) :
    SepSection (Detailed.buildDecisionsSection ds) := by
  by_cases h : ds.length = 0
  · left
    simp [Detailed.buildDecisionsSection, h]
  · right
    refine ⟨["### Decisions Made"]
        ++ ds.map (fun d => "- " ++ d.decision ++ ": " ++ d.reason),
      by simp [Detailed.buildDecisionsSection, h], by simp, ?_⟩
    intro l hl
    rw [List.mem_append] at hl
    rcases hl with hl | hl
    · rw [show l = "### Decisions Made" by simpa using hl]
      decide
    · obtain ⟨d, _, rfl⟩ := List.mem_map.mp hl
      exact str_append_ne_of_left _ (str_append_ne_of_right _ (by decide))

theorem sep_detailed_tried (tf : List TriedFailed) :
    SepSection (Detailed.buildTriedFailedSection tf) := by
  by_cases h : tf.length = 0
  · left
    simp [Detailed.buildTriedFailedSection, h]
  · right
    refine ⟨["### Tried & Failed"]
        ++ tf.map (fun t => "- " ++ t.approach ++ ": " ++ t.why_failed),
      by simp [Detailed.buildTriedFailedSection, h], by simp, ?_⟩
    intro l hl
    rw [List.mem_append] at hl
    rcases hl with hl | hl
    · rw [show l = "### Tried & Failed" by simpa using hl]
      decide
    · obtain ⟨t, _, rfl⟩ := List.mem_map.mp hl
      exact str_append_ne_of_left _ (str_append_ne_of_right _ (by decide))

theorem sep_detailed_next (steps : List String) :
    SepSection (Detailed.buildNextStepsSection steps) := by
  by_cases h : steps.length = 0
  · left
    simp [Detailed.buildNextStepsSection, h]
  · right
    refine ⟨["### Next Steps"]
        ++ steps.enum.map (fun p => toString (p.1 + 1) ++ ". " ++ p.2),
      by simp [Detailed.buildNextStepsSection, h], by simp, ?_⟩
    intro l hl
    rw [List.mem_append] at hl
    rcases hl with hl | hl
    · rw [show l = "### Next Steps" by simpa using hl]
      decide
    · obtain ⟨p, _, rfl⟩ := List.mem_map.mp hl
      exact str_append_ne_of_left _ (str_append_ne_of_right _ (by decide))

theorem sep_detailed_prefs (prefs : List String) :
    SepSection (Detailed.buildUserPrefsSection prefs) := by
  by_cases h : prefs.length = 0
  · left
    simp [Detailed.buildUserPrefsSection, h]
  · right
    refine ⟨["### User Preferences"] ++ prefs.map (fun p => "- " ++ p),
      by simp [Detailed.buildUserPrefsSection, h], by simp, ?_⟩
    intro l hl
    rw [List.mem_append] at hl
    rcases hl with hl | hl
    · rw [show l = "### User Preferences" by simpa using hl]
      decide
    · obtain ⟨p, _, rfl⟩ := List.mem_map.mp hl
      exact str_append_ne_of_left _ (by decide)

/-- C7: in both formats the document is the fixed header region followed
by the optional sections in their fixed enumerated order and the footer
block; the first line of the document is the header, never a blank; and
every section either contributes no lines at all or contributes exactly
one blank line followed by non-blank content, so each present section is
preceded by exactly one inserted blank line and an absent section leaves
no stray blank line. -/
theorem c7_blank_line_separation (cargs : Compact.HandoffArgs) (dargs : Detailed.HandoffArgs) :
    (Compact.promptLines cargs =
        ["## Session Handoff", "", cargs.summary]
        ++ Compact.buildBlockedSection cargs.blocked
        ++ Compact.buildTodosSection cargs.todos
        ++ Compact.buildFilesSection cargs.modified_files
        ++ Compact.buildDecisionsSection cargs.decisions
        ++ Compact.buildNextStepsSection cargs.next_steps
        ++ ["", "---",
            "Previous: `" ++ cargs.previousSessionId ++
              "` Â· Use `read_session` if you need more context."] ∧
      (Compact.promptLines cargs).head? = some "## Session Handoff" ∧
      SepSection (Compact.buildBlockedSection cargs.blocked) ∧
      SepSection (Compact.buildTodosSection cargs.todos) ∧
      SepSection (Compact.buildFilesSection cargs.modified_files) ∧
      SepSection (Compact.buildDecisionsSection cargs.decisions) ∧
      SepSection (Compact.buildNextStepsSection cargs.next_steps) ∧
      SepSection ["", "---",
        "Previous: `" ++ cargs.previousSessionId ++
          "` Â· Use `read_session` if you need more context."]) ∧
    (Detailed.promptLines dargs =
        ["## Handoff Continuation Prompt", "", "### Task",
         if dargs.task = "" then "Continue previous work" else dargs.task]
        ++ Detailed.buildBlockedSection dargs.blocked
        ++ Detailed.buildTodosSection dargs.todos
        ++ Detailed.buildFilesSection dargs.modified_files dargs.reference_files
        ++ Detailed.buildDecisionsSection dargs.decisions
        ++ Detailed.buildTriedFailedSection dargs.tried_failed
        ++ Detailed.buildNextStepsSection dargs.next_steps
        ++ Detailed.buildUserPrefsSection dargs.user_prefs
        ++ ["", "---",
            "Continuing from session `" ++ dargs.previousSessionId ++
              "`. Use `read_session` tool if you need additional context."] ∧
      (Detailed.promptLines dargs).head? = some "## Handoff Continuation Prompt" ∧
      SepSection (Detailed.buildBlockedSection dargs.blocked) ∧
      SepSection (Detailed.buildTodosSection dargs.todos) ∧
      SepSection (Detailed.buildFilesSection dargs.modified_files dargs.reference_files) ∧
      SepSection (Detailed.buildDecisionsSection dargs.decisions) ∧
      SepSection (Detailed.buildTriedFailedSection dargs.tried_failed) ∧
      SepSection (Detailed.buildNextStepsSection dargs.next_steps) ∧
      SepSection (Detailed.buildUserPrefsSection dargs.user_prefs) ∧
      SepSection ["", "---",
        "Continuing from session `" ++ dargs.previousSessionId ++
          "`. Use `read_session` tool if you need additional context."]) := by
  refine ⟨⟨rfl, rfl, sep_compact_blocked _, sep_compact_todos _, sep_compact_files _,
      sep_compact_decisions _, sep_compact_next _, ?_⟩,
    rfl, rfl, sep_detailed_blocked _, sep_detailed_todos _, sep_detailed_files _ _,
      sep_detailed_decisions _, sep_detailed_tried _, sep_detailed_next _,
      sep_detailed_prefs _, ?_⟩
  · have := sep_footer ("Previous: `" ++ cargs.previousSessionId)
      (show ("` Â· Use `read_session` if you need more context." : String) ≠ "" by decide)
    simpa [String.append_assoc] using this
  · have := sep_footer ("Continuing from session `" ++ dargs.previousSessionId)
      (show ("`. Use `read_session` tool if you need additional context." : String) ≠ "" by decide)
    simpa [String.append_assoc] using this

theorem ite_pos_len {α β : Type} (l : List α) (x : List β) :
    (if 0 < l.length then x else []) = if l.length = 0 then [] else x := by
  by_cases h : l.length = 0 <;> simp [h, Nat.pos_iff_ne_zero]

theorem idx_blocked_eq (b : String) :
    (if b ≠ "" ∧ b ≠ "none" then ["", "### Blocked", b] else []) =
      Detailed.buildBlockedSection b := by
  by_cases h1 : b = "" <;> by_cases h2 : b = "none" <;>
    simp [Detailed.buildBlockedSection, h1, h2]

theorem idx_files_eq (m r : List String) :
    (if 0 < m.length ∨ 0 < r.length then
       ["", "### Files"]
       ++ (if 0 < m.length then ["Modified: " ++ String.intercalate ", " m] else [])
       ++ (if 0 < r.length then ["Reference: " ++ String.intercalate ", " r] else [])
     else []) =
      Detailed.buildFilesSection m r := by
  by_cases h1 : m.length = 0 <;> by_cases h2 : r.length = 0 <;>
    simp [Detailed.buildFilesSection, h1, h2, Nat.pos_iff_ne_zero]

/-- C10: the three coexisting Detailed-format builders — the exported one
of src/prompt.ts, the module-private one of src/index.ts and the one of
src/unnamed/part_003 — are extensionally equal: on every input record they
produce identical output strings. -/
theorem c10_detailed_impls_agree (args : Detailed.HandoffArgs) :
    IndexTs.buildHandoffPrompt args = Detailed.buildHandoffPrompt args ∧
    Part003.buildHandoffPrompt args = Detailed.buildHandoffPrompt args := by
  constructor
  · unfold IndexTs.buildHandoffPrompt Detailed.buildHandoffPrompt Detailed.promptLines
    apply congrArg
    cases htodos : args.todos with
    | none =>
      simp only [Option.elim, idx_blocked_eq, idx_files_eq]
      simp only [ite_pos_len, Detailed.buildTodosSection,
        Detailed.buildDecisionsSection, Detailed.buildTriedFailedSection,
        Detailed.buildNextStepsSection, Detailed.buildUserPrefsSection]
      simp [List.append_assoc]
    | some ts =>
      simp only [Option.elim, idx_blocked_eq, idx_files_eq]
      simp only [ite_pos_len, Detailed.buildTodosSection,
        Detailed.buildDecisionsSection, Detailed.buildTriedFailedSection,
        Detailed.buildNextStepsSection, Detailed.buildUserPrefsSection]
      simp [List.append_assoc]
  · cases htodos : args.todos <;>
      · unfold Part003.buildHandoffPrompt Detailed.buildHandoffPrompt Detailed.promptLines
        apply congrArg
        simp only [Part003.buildBlockedSection, Detailed.buildBlockedSection,
          Part003.buildTodosSection, Detailed.buildTodosSection,
          Part003.buildFilesSection, Detailed.buildFilesSection,
          Part003.buildDecisionsSection, Detailed.buildDecisionsSection,
          Part003.buildTriedFailedSection, Detailed.buildTriedFailedSection,
          Part003.buildNextStepsSection, Detailed.buildNextStepsSection,
          Part003.buildUserPrefsSection, Detailed.buildUserPrefsSection, htodos]
